import Mathlib

/-!
Shallow embedding of the embedded-runtime bridge of EZ-Stretch-BSC:
`cpp/src/JuliaRuntime.cpp` (interpreter lifecycle, marshaling, pipeline
invocation) and the host adapter `cpp/src/BayesianAstroInstance.cpp`
(`ExecuteGlobal`), together with the enumerations from
`cpp/include/JuliaRuntime.h` and `cpp/include/BayesianAstroParameters.h`.

The foreign (Julia) runtime is modelled by an environment record that fixes
the outcome of each embedded-interpreter call (`jl_init` success, whether a
given `jl_eval_string` raises, the value of the GPU probe); the C++ object
state (`m_initialized`, the Julia-side exception flag, whether the
interpreter process state is currently started) is threaded explicitly.
Every function also returns the list of foreign calls it issued, so that
"issues no foreign call" and "performs teardown at most once" are statable.

Float-typed configuration fields (`confidenceThreshold`, `outlierSigma`)
are carried as the decimal text the C++ code streams into the command
string; no claim depends on numeric float semantics. The float statistic
`meanConfidence` of `ProcessingResult` (never assigned by the modelled
code) is omitted for the same reason.
-/

/-- A call into the embedded Julia C API, as issued by `JuliaRuntime`:
`jl_init()`, `jl_eval_string(cmd)`, or `jl_atexit_hook(0)`. -/
inductive JuliaCall where
  | jlInit : JuliaCall
  | evalString : String → JuliaCall
  | atexitHook : JuliaCall
  deriving Repr, DecidableEq

/-- State of the `JuliaRuntime` singleton together with the process-wide
interpreter state it manipulates.
`m_initialized` is the member flag of `JuliaRuntime`;
`interpreterRunning` records whether the Julia interpreter has been started
by `jl_init()` and not yet torn down by `jl_atexit_hook(0)`;
`juliaError` is the Julia-side sticky exception flag read by
`jl_exception_occurred()` and cleared by `jl_exception_clear()`;
`m_juliaModulePath` is the member set by `Initialize`. -/
structure RuntimeState where
  m_initialized : Bool
  interpreterRunning : Bool
  juliaError : Bool
  m_juliaModulePath : String
  deriving Repr, DecidableEq

/-- `JuliaRuntime::IsInitialized()` (JuliaRuntime.h line 73). -/
def IsInitialized (s : RuntimeState) : Bool :=
  s.m_initialized

/-- `jl_eval_string` as it affects the modelled state: the environment
decides whether this evaluation raises, which sets the Julia exception
flag (and a successful evaluation leaves no pending exception). -/
def jlEvalString (s : RuntimeState) (raises : Bool) : RuntimeState :=
  { s with juliaError := raises }

/-- `JuliaRuntime::HandleJuliaException` (JuliaRuntime.cpp lines 256-270):
prints the error description to stderr and calls `jl_exception_clear()`,
clearing the Julia-side error state. -/
def HandleJuliaException (s : RuntimeState) : RuntimeState :=
  { s with juliaError := false }

/-- `JuliaRuntime::Shutdown` (JuliaRuntime.cpp lines 62-69): only when
`m_initialized` is set does it call `jl_atexit_hook(0)` (tearing the
interpreter down) and reset the flag; otherwise it is a no-op. -/
def Shutdown (s : RuntimeState) : RuntimeState × List JuliaCall :=
  if s.m_initialized then
    ({ s with m_initialized := false, interpreterRunning := false },
     [JuliaCall.atexitHook])
  else
    (s, [])

/-- Environment fixing the foreign outcomes of one `Initialize` attempt:
whether `jl_is_initialized()` holds after `jl_init()`, whether each of the
two module-load evaluations raises, and the current working directory used
to build `m_juliaModulePath`. -/
structure InitEnv where
  jlInitSucceeds : Bool
  loadPathRaises : Bool
  usingModuleRaises : Bool
  currentPath : String
  deriving Repr, DecidableEq

/-- Outcome of `LoadBayesianAstroModule` / `Initialize`: returned Bool,
resulting state, and the foreign calls issued. -/
structure InitOutcome where
  ok : Bool
  state : RuntimeState
  calls : List JuliaCall
  deriving Repr, DecidableEq

/-- `JuliaRuntime::LoadBayesianAstroModule` (JuliaRuntime.cpp lines 71-102):
evaluates `push!(LOAD_PATH, "<m_juliaModulePath>")`, then
`using BayesianAstro`, handling (and thereby clearing) a raised exception
after each; on success it also evaluates `BayesianAstro` to cache function
pointers (the code does not check the exception flag after that last
evaluation, which cannot raise once `using BayesianAstro` succeeded). -/
def LoadBayesianAstroModule (s : RuntimeState) (env : InitEnv) : InitOutcome :=
  let loadCmd := "push!(LOAD_PATH, \"" ++ s.m_juliaModulePath ++ "\")"
  let s1 := jlEvalString s env.loadPathRaises
  if s1.juliaError then
    { ok := false, state := HandleJuliaException s1,
      calls := [JuliaCall.evalString loadCmd] }
  else
    let s2 := jlEvalString s1 env.usingModuleRaises
    if s2.juliaError then
      { ok := false, state := HandleJuliaException s2,
        calls := [JuliaCall.evalString loadCmd,
                  JuliaCall.evalString "using BayesianAstro"] }
    else
      { ok := true, state := s2,
        calls := [JuliaCall.evalString loadCmd,
                  JuliaCall.evalString "using BayesianAstro",
                  JuliaCall.evalString "BayesianAstro"] }

/-- `JuliaRuntime::Initialize` (JuliaRuntime.cpp lines 27-60): returns true
immediately when `m_initialized` is already set; otherwise calls
`jl_init()`, fails if `jl_is_initialized()` is false, sets
`m_juliaModulePath` from the current path, and runs
`LoadBayesianAstroModule`; on module-load failure it calls `Shutdown()`
(whose `m_initialized` guard is still false at that point) and returns
false; on success it sets `m_initialized` and returns true. -/
def Initialize (s : RuntimeState) (env : InitEnv) : InitOutcome :=
  if s.m_initialized then
    { ok := true, state := s, calls := [] }
  else
    let s1 := { s with interpreterRunning := env.jlInitSucceeds }
    if !env.jlInitSucceeds then
      { ok := false, state := s1, calls := [JuliaCall.jlInit] }
    else
      let s2 := { s1 with m_juliaModulePath := env.currentPath ++ "/julia" }
      let load := LoadBayesianAstroModule s2 env
      if !load.ok then
        let shut := Shutdown load.state
        { ok := false, state := shut.1,
          calls := JuliaCall.jlInit :: load.calls ++ shut.2 }
      else
        { ok := true, state := { load.state with m_initialized := true },
          calls := JuliaCall.jlInit :: load.calls }

/-- Environment for the GPU probe: whether the evaluation of
`BayesianAstro.CUDA_AVAILABLE[]` raises, and its Bool value otherwise. -/
structure GpuEnv where
  queryRaises : Bool
  cudaAvailable : Bool
  deriving Repr, DecidableEq

/-- `JuliaRuntime::IsGPUAvailable` (JuliaRuntime.cpp lines 104-116):
false when not initialized, false when the foreign query raises, otherwise
the unboxed Bool value of `BayesianAstro.CUDA_AVAILABLE[]`. -/
def IsGPUAvailable (s : RuntimeState) (env : GpuEnv) : Bool :=
  if !s.m_initialized then
    false
  else if env.queryRaises then
    false
  else
    env.cudaAvailable

/-- `ProcessingConfig` (JuliaRuntime.h lines 31-39). `fusionStrategy` is
the underlying integer of the `FusionStrategy : int` enum class; the two
float fields are carried as the decimal text streamed into the command. -/
structure ProcessingConfig where
  fusionStrategy : Int
  confidenceThreshold : String
  outlierSigma : String
  tileSizeX : Int
  tileSizeY : Int
  useGPU : Bool
  deriving Repr, DecidableEq

/-- Values of `enum class FusionStrategy : int` (JuliaRuntime.h
lines 22-28), mirroring the one-based Julia enumeration. -/
def FusionStrategy.MLE : Int := 1

/-- `FusionStrategy::ConfidenceWeighted = 2` (JuliaRuntime.h line 25). -/
def FusionStrategy.ConfidenceWeighted : Int := 2

/-- `FusionStrategy::Lucky = 3` (JuliaRuntime.h line 26). -/
def FusionStrategy.Lucky : Int := 3

/-- `FusionStrategy::MultiScale = 4` (JuliaRuntime.h line 27). -/
def FusionStrategy.MultiScale : Int := 4

/-- Values of the zero-based native parameter enumeration
`BAFusionStrategy` (BayesianAstroParameters.h lines 19-24). -/
def BAFusionStrategy.MLE : Int := 0

/-- `BAFusionStrategy::ConfidenceWeighted = 1`. -/
def BAFusionStrategy.ConfidenceWeighted : Int := 1

/-- `BAFusionStrategy::Lucky = 2`. -/
def BAFusionStrategy.Lucky : Int := 2

/-- `BAFusionStrategy::MultiScale = 3`. -/
def BAFusionStrategy.MultiScale : Int := 3

/-- `BAFusionStrategy::Default = ConfidenceWeighted`
(BayesianAstroParameters.h line 24). -/
def BAFusionStrategy.Default : Int := BAFusionStrategy.ConfidenceWeighted

/-- The member defaults of `ProcessingConfig` (JuliaRuntime.h lines 33-38):
ConfidenceWeighted strategy, threshold 0.1f, sigma 3.0f, 1024 by 1024
tiles, GPU enabled. -/
def defaultProcessingConfig : ProcessingConfig :=
  { fusionStrategy := FusionStrategy.ConfidenceWeighted,
    confidenceThreshold := "0.1",
    outlierSigma := "3",
    tileSizeX := 1024,
    tileSizeY := 1024,
    useGPU := true }

/-- `ProcessingResult` (JuliaRuntime.h lines 42-56), with the float field
`meanConfidence` omitted (never assigned by the modelled code). -/
structure ProcessingResult where
  success : Bool := false
  errorMessage : String := ""
  fusedImagePath : String := ""
  confidenceMapPath : String := ""
  totalPixels : Int := 0
  gaussianPixels : Int := 0
  poissonPixels : Int := 0
  bimodalPixels : Int := 0
  artifactPixels : Int := 0
  deriving Repr, DecidableEq

/-- The per-path encoding `ProcessStack` applies when building the Julia
file-list literal (JuliaRuntime.cpp line 155): the path is wrapped in
double quotes verbatim, with no character of the path transformed. -/
def quoteFilePath (p : String) : String :=
  "\"" ++ p ++ "\""

/-- The Julia array literal built from the input file list
(JuliaRuntime.cpp lines 150-157): `String[` then the quoted paths joined
by a comma and a space, then `]`. -/
def buildFilesArrayCmd (inputFiles : List String) : String :=
  "String[" ++ String.intercalate ", " (inputFiles.map quoteFilePath) ++ "]"

/-- The Julia `ProcessingConfig(...)` construction expression built by
`ProcessStack` (JuliaRuntime.cpp lines 169-176). -/
def buildConfigCmd (config : ProcessingConfig) : String :=
  "ProcessingConfig(" ++
    "fusion_strategy=" ++ toString config.fusionStrategy ++ ", " ++
    "confidence_threshold=" ++ config.confidenceThreshold ++ "f0, " ++
    "outlier_sigma=" ++ config.outlierSigma ++ "f0, " ++
    "tile_size=(" ++ toString config.tileSizeX ++ ", " ++
      toString config.tileSizeY ++ "), " ++
    "use_gpu=" ++ (if config.useGPU then "true" else "false") ++ ")"

/-- Environment fixing the foreign outcomes of one `ProcessStack`
invocation: whether each of the three `jl_eval_string` calls (file-list
literal, config construction, `process_directory`) raises. -/
structure ProcessEnv where
  filesArrayRaises : Bool
  configEvalRaises : Bool
  processRaises : Bool
  deriving Repr, DecidableEq

/-- Outcome of `ProcessStack`: the returned `ProcessingResult`, the final
state, the foreign calls issued, and the `(percent, status)` progress
callback invocations in order. -/
structure ProcessOutcome where
  result : ProcessingResult
  state : RuntimeState
  calls : List JuliaCall
  progress : List (Int × String)
  deriving Repr, DecidableEq

/-- `JuliaRuntime::ProcessStack` (JuliaRuntime.cpp lines 133-220).
`hasCallback` models whether the `std::function` progress callback is
non-null. Flow: reject when not initialized (no foreign call, no
callback); evaluate the file-list literal, failing with
"Failed to create input file list" if it raises; evaluate the config
construction, failing with "Failed to create processing config" if it
raises; report progress (0, "Loading frames..."); evaluate the
`process_directory(...)` command, failing with "Processing failed - see
console for details" if it raises (each failure path runs
`HandleJuliaException`, clearing the Julia error state); on success fill
in the two derived artifact paths and report (100, "Complete"). -/
def ProcessStack (s : RuntimeState) (env : ProcessEnv)
    (inputFiles : List String) (outputDirectory outputPref : String)
    (config : ProcessingConfig) (hasCallback : Bool) : ProcessOutcome :=
  if !s.m_initialized then
    { result := { success := false,
                  errorMessage := "Julia runtime not initialized" },
      state := s, calls := [], progress := [] }
  else
    let filesArrayCmd := buildFilesArrayCmd inputFiles
    let s1 := jlEvalString s env.filesArrayRaises
    if s1.juliaError then
      { result := { success := false,
                    errorMessage := "Failed to create input file list" },
        state := HandleJuliaException s1,
        calls := [JuliaCall.evalString filesArrayCmd], progress := [] }
    else
      let configCmd := buildConfigCmd config
      let s2 := jlEvalString s1 env.configEvalRaises
      if s2.juliaError then
        { result := { success := false,
                      errorMessage := "Failed to create processing config" },
          state := HandleJuliaException s2,
          calls := [JuliaCall.evalString filesArrayCmd,
                    JuliaCall.evalString configCmd],
          progress := [] }
      else
        let startProgress : List (Int × String) :=
          if hasCallback then [(0, "Loading frames...")] else []
        let processCmd :=
          "process_directory(\"" ++ outputDirectory ++ "/" ++ outputPref ++
            "\", config=" ++ configCmd ++ ")"
        let s3 := jlEvalString s2 env.processRaises
        if s3.juliaError then
          { result := { success := false,
                        errorMessage :=
                          "Processing failed - see console for details" },
            state := HandleJuliaException s3,
            calls := [JuliaCall.evalString filesArrayCmd,
                      JuliaCall.evalString configCmd,
                      JuliaCall.evalString processCmd],
            progress := startProgress }
        else
          { result := { success := true,
                        fusedImagePath :=
                          outputDirectory ++ "/" ++ outputPref ++
                            "_fused.fits",
                        confidenceMapPath :=
                          outputDirectory ++ "/" ++ outputPref ++
                            "_confidence.fits" },
            state := s3,
            calls := [JuliaCall.evalString filesArrayCmd,
                      JuliaCall.evalString configCmd,
                      JuliaCall.evalString processCmd],
            progress :=
              startProgress ++
                (if hasCallback then [(100, "Complete")] else []) }

/-- The parameter state of a `BayesianAstroInstance`
(BayesianAstroInstance.h), restricted to the fields `ExecuteGlobal` reads.
`p_fusionStrategy` holds a zero-based `BAFusionStrategy` value; float
parameters are carried as the decimal text they would be streamed as; the
source field name of `p_outputPref` is the output prefix parameter. -/
structure BayesianAstroInstance where
  p_fusionStrategy : Int
  p_inputFiles : List String
  p_outlierSigma : String
  p_confidenceThreshold : String
  p_useGPU : Bool
  p_generateConfidenceMap : Bool
  p_outputDirectory : String
  p_outputPref : String
  deriving Repr, DecidableEq

/-- The `ProcessingConfig` built by `BayesianAstroInstance::ExecuteGlobal`
(BayesianAstroInstance.cpp lines 106-111): a default-constructed config
whose `fusionStrategy` is `static_cast<FusionStrategy>(p_fusionStrategy + 1)`
(the comment in the source reads "Julia is 1-indexed"), with sigma,
threshold and the GPU flag copied from the instance; the tile size keeps
its defaults and `p_generateConfidenceMap` is not transferred. -/
def buildExecuteGlobalConfig (inst : BayesianAstroInstance) : ProcessingConfig :=
  { defaultProcessingConfig with
    fusionStrategy := inst.p_fusionStrategy + 1,
    outlierSigma := inst.p_outlierSigma,
    confidenceThreshold := inst.p_confidenceThreshold,
    useGPU := inst.p_useGPU }

/-- Outcome of `ExecuteGlobal`: the returned Bool, the `ProcessingResult`
obtained from `ProcessStack`, the runtime state afterwards, and the
console lines written (the final mean-confidence line, which formats the
float statistic, is omitted together with that field). -/
structure ExecOutcome where
  ok : Bool
  result : ProcessingResult
  state : RuntimeState
  consoleLines : List String
  deriving Repr, DecidableEq

/-- `BayesianAstroInstance::ExecuteGlobal`
(BayesianAstroInstance.cpp lines 94-148): writes the banner, builds the
config via `buildExecuteGlobalConfig`, calls `ProcessStack` with a
non-null progress callback, and on failure writes the error line and
returns false; on success writes the fused-image line and, only when
`p_generateConfidenceMap` is set, the confidence-map line, returning
true. -/
def ExecuteGlobal (s : RuntimeState) (env : ProcessEnv)
    (inst : BayesianAstroInstance) : ExecOutcome :=
  let banner := ["<b>BayesianAstro</b>",
                 "Processing " ++ toString inst.p_inputFiles.length ++
                   " frames..."]
  let out := ProcessStack s env inst.p_inputFiles inst.p_outputDirectory
      inst.p_outputPref (buildExecuteGlobalConfig inst) true
  if !out.result.success then
    { ok := false, result := out.result, state := out.state,
      consoleLines :=
        banner ++ ["** Processing failed: " ++ out.result.errorMessage] }
  else
    { ok := true, result := out.result, state := out.state,
      consoleLines :=
        banner ++ ["Fused image: " ++ out.result.fusedImagePath] ++
          (if inst.p_generateConfidenceMap then
            ["Confidence map: " ++ out.result.confidenceMapPath]
          else []) }

/-- The state of a freshly constructed `JuliaRuntime` singleton: member
initializers give `m_initialized = false` and an empty module path; no
interpreter is running and no Julia exception is pending. -/
def freshState : RuntimeState :=
  { m_initialized := false, interpreterRunning := false,
    juliaError := false, m_juliaModulePath := "" }

/-- A representative state after a successful `Initialize`. -/
def readyState : RuntimeState :=
  { m_initialized := true, interpreterRunning := true,
    juliaError := false, m_juliaModulePath := "/work/julia" }

/-- A `ProcessStack` environment in which no foreign evaluation raises. -/
def envAllOk : ProcessEnv :=
  { filesArrayRaises := false, configEvalRaises := false,
    processRaises := false }

/-- A `ProcessStack` environment in which the foreign pipeline call
(`process_directory`) raises while the marshaling evaluations succeed. -/
def envPipelineFails : ProcessEnv :=
  { filesArrayRaises := false, configEvalRaises := false,
    processRaises := true }

/-- An `Initialize` environment in which the interpreter starts but
`using BayesianAstro` raises (module-load failure). -/
def envModuleLoadFails : InitEnv :=
  { jlInitSucceeds := true, loadPathRaises := false,
    usingModuleRaises := true, currentPath := "/work" }

/-- Claim C1, as stated, is false at native index 0: the translation
`ExecuteGlobal` applies when building the `ProcessingConfig` maps native
zero-based strategy index 0 to foreign value 1, not to foreign value 2. -/
theorem C1_counterexample :
    (buildExecuteGlobalConfig
      { p_fusionStrategy := 0, p_inputFiles := [], p_outlierSigma := "3",
        p_confidenceThreshold := "0.1", p_useGPU := true,
        p_generateConfidenceMap := true, p_outputDirectory := "",
        p_outputPref := "" }).fusionStrategy = 1 ∧ (1 : Int) ≠ 2 := by
  exact ⟨rfl, by decide⟩

/-- Claim C1 (amended): the fusion-strategy translation applied when the
Host Adapter builds the `ProcessingConfig` maps every native zero-based
strategy index n to the foreign one-based value n + 1, so indices
0, 1, 2, 3 map to foreign values 1, 2, 3, 4 (MLE, ConfidenceWeighted,
Lucky, MultiScale on both sides); in particular the native default
strategy, ConfidenceWeighted at index 1, maps to foreign value 2. -/
theorem C1_strategy_mapping (inst : BayesianAstroInstance) :
    (buildExecuteGlobalConfig inst).fusionStrategy =
      inst.p_fusionStrategy + 1 ∧
    BAFusionStrategy.MLE + 1 = FusionStrategy.MLE ∧
    BAFusionStrategy.ConfidenceWeighted + 1 =
      FusionStrategy.ConfidenceWeighted ∧
    BAFusionStrategy.Lucky + 1 = FusionStrategy.Lucky ∧
    BAFusionStrategy.MultiScale + 1 = FusionStrategy.MultiScale ∧
    BAFusionStrategy.Default + 1 = FusionStrategy.ConfidenceWeighted := by
  exact ⟨rfl, by decide, by decide, by decide, by decide, by decide⟩

/-- Claim C2: evaluating the file-list encoding of `ProcessStack` at a
path containing a quote and at a path containing a backslash shows both
characters are interpolated verbatim into the foreign sequence literal,
with no escaping applied (the claim and the spec require them escaped). -/
theorem C2_unescaped_interpolation :
    buildFilesArrayCmd ["a\"b"] = "String[\"a\"b\"]" ∧
    buildFilesArrayCmd ["a\\b"] = "String[\"a\\b\"]" :=
  ⟨rfl, rfl⟩

/-- Claim C3: evaluating `Initialize` on a fresh runtime, in an
environment where the interpreter starts but the module load raises,
shows the call returns failure with `m_initialized` still false, yet the
started interpreter is not torn down: no `jl_atexit_hook` call is issued,
because the `Shutdown()` call in the failure path is guarded by
`m_initialized`, which has not been set yet (the claim requires the
already-started interpreter to be torn down). -/
theorem C3_interpreter_leak :
    (Initialize freshState envModuleLoadFails).ok = false ∧
    (Initialize freshState envModuleLoadFails).state.m_initialized = false ∧
    (Initialize freshState envModuleLoadFails).state.interpreterRunning =
      true ∧
    JuliaCall.atexitHook ∉ (Initialize freshState envModuleLoadFails).calls := by
  refine ⟨rfl, rfl, rfl, ?_⟩
  decide

/-- Claim C4: when the runtime is not initialized, `ProcessStack` returns
a result with `success = false` and a non-empty error message, invokes the
progress callback zero times, and issues no foreign call. -/
theorem C4_reject_uninitialized (s : RuntimeState) (env : ProcessEnv)
    (files : List String) (dir pre : String) (config : ProcessingConfig)
    (cb : Bool) (h : s.m_initialized = false) :
    (ProcessStack s env files dir pre config cb).result.success = false ∧
    (ProcessStack s env files dir pre config cb).result.errorMessage ≠ "" ∧
    (ProcessStack s env files dir pre config cb).progress = [] ∧
    (ProcessStack s env files dir pre config cb).calls = [] := by
  simp [ProcessStack, h]

/-- Witness for C4 at a concrete uninitialized state and call. -/
theorem C4_reject_uninitialized_witness :
    freshState.m_initialized = false ∧
    ((ProcessStack freshState envAllOk ["f.fits"] "/tmp/x" "run1"
        defaultProcessingConfig true).result.success = false ∧
     (ProcessStack freshState envAllOk ["f.fits"] "/tmp/x" "run1"
        defaultProcessingConfig true).result.errorMessage ≠ "" ∧
     (ProcessStack freshState envAllOk ["f.fits"] "/tmp/x" "run1"
        defaultProcessingConfig true).progress = [] ∧
     (ProcessStack freshState envAllOk ["f.fits"] "/tmp/x" "run1"
        defaultProcessingConfig true).calls = []) :=
  ⟨rfl, C4_reject_uninitialized freshState envAllOk ["f.fits"] "/tmp/x"
    "run1" defaultProcessingConfig true rfl⟩

/-- Claim C5: when the foreign pipeline call raises during a
`ProcessStack` invocation (marshaling evaluations succeeding),
`ProcessStack` returns `success = false` with a non-empty error message,
the foreign error state is cleared, and `IsInitialized` still returns
true afterward. -/
theorem C5_foreign_error_recovery (s : RuntimeState) (env : ProcessEnv)
    (files : List String) (dir pre : String) (config : ProcessingConfig)
    (cb : Bool) (hInit : s.m_initialized = true)
    (h1 : env.filesArrayRaises = false) (h2 : env.configEvalRaises = false)
    (h3 : env.processRaises = true) :
    (ProcessStack s env files dir pre config cb).result.success = false ∧
    (ProcessStack s env files dir pre config cb).result.errorMessage ≠ "" ∧
    (ProcessStack s env files dir pre config cb).state.juliaError = false ∧
    IsInitialized (ProcessStack s env files dir pre config cb).state =
      true := by
  simp [ProcessStack, jlEvalString, HandleJuliaException, IsInitialized,
    hInit, h1, h2, h3]

/-- Witness for C5 at a concrete ready state and failing pipeline. -/
theorem C5_foreign_error_recovery_witness :
    (readyState.m_initialized = true ∧
     envPipelineFails.filesArrayRaises = false ∧
     envPipelineFails.configEvalRaises = false ∧
     envPipelineFails.processRaises = true) ∧
    ((ProcessStack readyState envPipelineFails ["f.fits"] "/tmp/x" "run1"
        defaultProcessingConfig true).result.success = false ∧
     (ProcessStack readyState envPipelineFails ["f.fits"] "/tmp/x" "run1"
        defaultProcessingConfig true).result.errorMessage ≠ "" ∧
     (ProcessStack readyState envPipelineFails ["f.fits"] "/tmp/x" "run1"
        defaultProcessingConfig true).state.juliaError = false ∧
     IsInitialized (ProcessStack readyState envPipelineFails ["f.fits"]
        "/tmp/x" "run1" defaultProcessingConfig true).state = true) :=
  ⟨⟨rfl, rfl, rfl, rfl⟩,
   C5_foreign_error_recovery readyState envPipelineFails ["f.fits"]
     "/tmp/x" "run1" defaultProcessingConfig true rfl rfl rfl rfl⟩

/-- Claim C6: every successful `ProcessStack` invocation with output
directory `dir` and output prefix `pre` returns the fused image path
`dir ++ "/" ++ pre ++ "_fused.fits"` and the confidence map path
`dir ++ "/" ++ pre ++ "_confidence.fits"` (the fixed extension is
`.fits`). -/
theorem C6_artifact_paths (s : RuntimeState) (env : ProcessEnv)
    (files : List String) (dir pre : String) (config : ProcessingConfig)
    (cb : Bool) (hInit : s.m_initialized = true)
    (h1 : env.filesArrayRaises = false) (h2 : env.configEvalRaises = false)
    (h3 : env.processRaises = false) :
    (ProcessStack s env files dir pre config cb).result.success = true ∧
    (ProcessStack s env files dir pre config cb).result.fusedImagePath =
      dir ++ "/" ++ pre ++ "_fused.fits" ∧
    (ProcessStack s env files dir pre config cb).result.confidenceMapPath =
      dir ++ "/" ++ pre ++ "_confidence.fits" := by
  simp [ProcessStack, jlEvalString, hInit, h1, h2, h3]

/-- Witness for C6 at outputDir "/tmp/x" and outputPrefix "run1": the
paths are exactly "/tmp/x/run1_fused.fits" and
"/tmp/x/run1_confidence.fits". -/
theorem C6_artifact_paths_witness :
    readyState.m_initialized = true ∧
    (ProcessStack readyState envAllOk ["f.fits"] "/tmp/x" "run1"
        defaultProcessingConfig true).result.fusedImagePath =
      "/tmp/x/run1_fused.fits" ∧
    (ProcessStack readyState envAllOk ["f.fits"] "/tmp/x" "run1"
        defaultProcessingConfig true).result.confidenceMapPath =
      "/tmp/x/run1_confidence.fits" := by
  have h := C6_artifact_paths readyState envAllOk ["f.fits"] "/tmp/x"
    "run1" defaultProcessingConfig true rfl rfl rfl rfl
  exact ⟨rfl, h.2.1, h.2.2⟩

/-- A concrete instance whose generate-confidence-map flag is off. -/
def instanceNoConfMap : BayesianAstroInstance :=
  { p_fusionStrategy := 1, p_inputFiles := ["f.fits"],
    p_outlierSigma := "3", p_confidenceThreshold := "0.1",
    p_useGPU := true, p_generateConfidenceMap := false,
    p_outputDirectory := "/tmp/x", p_outputPref := "run1" }

/-- Claim C7, as stated, is false: with the generate-confidence-map flag
off, a successful invocation still returns a result carrying a
confidence-map path (the flag is not part of `ProcessingConfig` and
`ProcessStack` always fills the path in on success). -/
theorem C7_counterexample :
    instanceNoConfMap.p_generateConfidenceMap = false ∧
    (ExecuteGlobal readyState envAllOk instanceNoConfMap).result.success =
      true ∧
    (ExecuteGlobal readyState envAllOk
        instanceNoConfMap).result.confidenceMapPath =
      "/tmp/x/run1_confidence.fits" := by
  exact ⟨rfl, by decide, by decide⟩

/-- Claim C7 (amended): every `ProcessingResult` returned from a
successful invocation carries the confidence-map artifact path, whatever
the value of the generate-confidence-map flag — the result is entirely
independent of that flag, which only controls whether the Host Adapter
reports the path to the console. -/
theorem C7_confidence_map_always_present (s : RuntimeState)
    (env : ProcessEnv) (inst : BayesianAstroInstance) (b : Bool)
    (hInit : s.m_initialized = true) (h1 : env.filesArrayRaises = false)
    (h2 : env.configEvalRaises = false) (h3 : env.processRaises = false) :
    (ExecuteGlobal s env inst).result.success = true ∧
    (ExecuteGlobal s env inst).result.confidenceMapPath =
      inst.p_outputDirectory ++ "/" ++ inst.p_outputPref ++
        "_confidence.fits" ∧
    (ExecuteGlobal s env
        { inst with p_generateConfidenceMap := b }).result =
      (ExecuteGlobal s env inst).result := by
  simp [ExecuteGlobal, ProcessStack, buildExecuteGlobalConfig,
    jlEvalString, hInit, h1, h2, h3]

/-- Witness for C7 (amended) at a concrete ready state and instance. -/
theorem C7_confidence_map_always_present_witness :
    readyState.m_initialized = true ∧
    ((ExecuteGlobal readyState envAllOk instanceNoConfMap).result.success =
       true ∧
     (ExecuteGlobal readyState envAllOk
         instanceNoConfMap).result.confidenceMapPath =
       instanceNoConfMap.p_outputDirectory ++ "/" ++
         instanceNoConfMap.p_outputPref ++ "_confidence.fits" ∧
     (ExecuteGlobal readyState envAllOk
         { instanceNoConfMap with p_generateConfidenceMap := true }).result =
       (ExecuteGlobal readyState envAllOk instanceNoConfMap).result) :=
  ⟨rfl, C7_confidence_map_always_present readyState envAllOk
    instanceNoConfMap true rfl rfl rfl rfl⟩

/-- Claim C8: `Initialize` on an already-initialized runtime returns true
with the state unchanged and no foreign call issued (no interpreter
startup, no module-load side effect); `Shutdown` on a never-initialized
runtime is a no-op; a second `Shutdown` right after a first is a no-op;
and across two consecutive `Shutdown` calls the interpreter teardown
(`jl_atexit_hook`) is performed at most once. -/
theorem C8_lifecycle_idempotent (s : RuntimeState) (env : InitEnv) :
    Initialize { s with m_initialized := true } env =
      { ok := true, state := { s with m_initialized := true },
        calls := [] } ∧
    Shutdown { s with m_initialized := false } =
      ({ s with m_initialized := false }, []) ∧
    Shutdown (Shutdown s).1 = ((Shutdown s).1, []) ∧
    ((Shutdown s).2 ++ (Shutdown (Shutdown s).1).2).count
        JuliaCall.atexitHook ≤ 1 := by
  refine ⟨by simp [Initialize], by simp [Shutdown], ?_, ?_⟩ <;>
    by_cases h : s.m_initialized <;> simp [Shutdown, h]

/-- Claim C9: `IsGPUAvailable` is a total Boolean query (it never raises:
every outcome is a Bool), and it returns false both when the runtime is
not initialized and when the foreign query raises. -/
theorem C9_gpu_probe_safe (s : RuntimeState) (env : GpuEnv) :
    (IsGPUAvailable s env = true ∨ IsGPUAvailable s env = false) ∧
    IsGPUAvailable { s with m_initialized := false } env = false ∧
    IsGPUAvailable s { env with queryRaises := true } = false := by
  refine ⟨?_, by simp [IsGPUAvailable], ?_⟩
  · cases h : IsGPUAvailable s env
    · exact Or.inr rfl
    · exact Or.inl rfl
  · by_cases h : s.m_initialized <;> simp [IsGPUAvailable, h]

/-- Claim C10: `ProcessStack` never changes the lifecycle state — on
every path (not-initialized rejection, file-list marshaling failure,
config marshaling failure, foreign execution failure, success) the value
of `IsInitialized` after the call equals its value before. -/
theorem C10_lifecycle_frame (s : RuntimeState) (env : ProcessEnv)
    (files : List String) (dir pre : String) (config : ProcessingConfig)
    (cb : Bool) :
    IsInitialized (ProcessStack s env files dir pre config cb).state =
      IsInitialized s := by
  rcases s with ⟨mi, ir, je, mp⟩
  rcases env with ⟨fr, cr, xr⟩
  cases mi <;> cases fr <;> cases cr <;> cases xr <;> cases cb <;> rfl
